import Mathlib

/-!
Verification of the safe-learning shield benchmarks and the Gurobi
LP/QP wrapper, shallowly embedded over `ℚ`.

States and actions are vectors `Fin n → ℚ`; the dynamics, gains and
invariant half-space systems are matrices over `ℚ`, copied from the
benchmark entry points (`src/benchmarks/*.py`, `src/back/*.py`) and the
solver wrapper (`src/pympc/optimization/solvers/gurobi.py`).
-/

namespace SafeLearning

abbrev Vec (n : ℕ) := Fin n → ℚ

abbrev Mat (m n : ℕ) := Matrix (Fin m) (Fin n) ℚ

/-- The discrete-time environment of a benchmark: dynamics `x' = A x + B u`,
action bounds `[u_min, u_max]`, initial-state box `[s_min, s_max]`,
safety box `[x_min, x_max]`, quadratic costs `Q`, `R`.  Field order follows
the `Environment(A, B, u_min, u_max, s_min, s_max, x_min, x_max, Q, R)`
constructor calls in the benchmarks. -/
structure Environment (n m : ℕ) where
  A : Mat n n
  B : Mat n m
  u_min : Vec m
  u_max : Vec m
  s_min : Vec n
  s_max : Vec n
  x_min : Vec n
  x_max : Vec n
  Q : Mat n n
  R : Mat m m

/-- `x` is inside the safety box `[x_min, x_max]` of the environment. -/
def Environment.inSafety {n m : ℕ} (env : Environment n m) (x : Vec n) : Prop :=
  ∀ i, env.x_min i ≤ x i ∧ x i ≤ env.x_max i

/-- Membership in a half-space system: `H x ≤ c` componentwise. -/
def inPolytope {k n : ℕ} (H : Mat k n) (c : Vec k) (x : Vec n) : Prop :=
  ∀ i, (H.mulVec x) i ≤ c i

/-- Membership in an axis-aligned box `[lower, upper]`. -/
def inBox {n : ℕ} (lower upper x : Vec n) : Prop :=
  ∀ i, lower i ≤ x i ∧ x i ≤ upper i

/-- One closed-loop step under the verified feedback law `u = K x`:
`x' = A x + B (K x)`. -/
def closedStep {n m : ℕ} (A : Mat n n) (B : Mat n m) (K : Mat m n)
    (x : Vec n) : Vec n :=
  A.mulVec x + B.mulVec (K.mulVec x)

/-- The half-space matrix produced by the `for i in range(n)` loops of the
4-car-platoon and magnetic-pointer benchmarks: the loop starts from a zero
matrix and sets `mat[2*i, i] = 1` and `mat[2*i+1, i] = -1`, each cell being
written at most once, so row `2i` is `+eᵢ`, row `2i+1` is `-eᵢ`. -/
def intervalMat (n : ℕ) : Mat (2 * n) n := fun r c =>
  if r.val = 2 * c.val then 1 else if r.val = 2 * c.val + 1 then -1 else 0

/-- The bias vector produced by the same loops: `bias[2*i] = s_max[i]` and
`bias[2*i+1] = s_max[i]`, i.e. entry `r` holds `s_max[r / 2]`. -/
def intervalBias {n : ℕ} (smax : Vec n) : Vec (2 * n) := fun r =>
  smax ⟨r.val / 2, by omega⟩

lemma intervalMat_mulVec_even {n : ℕ} (x : Vec n) (i : Fin n)
    (h : 2 * i.val < 2 * n) :
    (intervalMat n).mulVec x ⟨2 * i.val, h⟩ = x i := by
  unfold intervalMat Matrix.mulVec Matrix.dotProduct
  rw [Finset.sum_eq_single i]
  · simp
  · intro c _ hc
    have h1 : ¬ (2 * i.val = 2 * c.val) := by
      intro hcon
      exact hc (Fin.ext (by omega)).symm
    have h2 : ¬ (2 * i.val = 2 * c.val + 1) := by omega
    simp [h1, h2]
  · intro hcon
    exact absurd (Finset.mem_univ i) hcon

lemma intervalMat_mulVec_odd {n : ℕ} (x : Vec n) (i : Fin n)
    (h : 2 * i.val + 1 < 2 * n) :
    (intervalMat n).mulVec x ⟨2 * i.val + 1, h⟩ = -x i := by
  unfold intervalMat Matrix.mulVec Matrix.dotProduct
  rw [Finset.sum_eq_single i]
  · have h1 : ¬ (2 * i.val + 1 = 2 * i.val) := by omega
    simp [h1]
  · intro c _ hc
    have h1 : ¬ (2 * i.val + 1 = 2 * c.val) := by omega
    have h2 : ¬ (2 * i.val + 1 = 2 * c.val + 1) := by
      intro hcon
      exact hc (Fin.ext (by omega)).symm
    simp [h1, h2]
  · intro hcon
    exact absurd (Finset.mem_univ i) hcon

/-- The loop-built polytope `{x : mat x ≤ bias}` is contained in the box
`[smin, smax]` whenever `smin = -smax` componentwise (which holds at both
loop-using call sites after the origin shift). -/
lemma intervalMat_cover {n : ℕ} (smin smax : Vec n)
    (hsym : ∀ i, smin i = -smax i) (x : Vec n)
    (hx : inPolytope (intervalMat n) (intervalBias smax) x) :
    inBox smin smax x := by
  intro i
  have he : 2 * i.val < 2 * n := by omega
  have ho : 2 * i.val + 1 < 2 * n := by omega
  have h1 := hx ⟨2 * i.val, he⟩
  have h2 := hx ⟨2 * i.val + 1, ho⟩
  rw [intervalMat_mulVec_even x i he] at h1
  rw [intervalMat_mulVec_odd x i ho] at h2
  have hb1 : intervalBias smax ⟨2 * i.val, he⟩ = smax i := by
    unfold intervalBias
    congr 1
    exact Fin.ext (by show 2 * i.val / 2 = i.val; omega)
  have hb2 : intervalBias smax ⟨2 * i.val + 1, ho⟩ = smax i := by
    unfold intervalBias
    congr 1
    exact Fin.ext (by show (2 * i.val + 1) / 2 = i.val; omega)
  rw [hb1] at h1
  rw [hb2] at h2
  constructor
  · rw [hsym i]; linarith
  · exact h1

/-! ## The cruise benchmark (`src/benchmarks/cruise.py`) -/

namespace cruise

def A : Mat 1 1 := Matrix.of ![![(99501 : ℚ)/100000]]

def B : Mat 1 1 := Matrix.of ![![(78125 : ℚ)/10000000]]

def s_min : Vec 1 := ![-1]
def s_max : Vec 1 := ![1]
def x_min : Vec 1 := ![-(3 : ℚ)/2]
def x_max : Vec 1 := ![(3 : ℚ)/2]
def u_min : Vec 1 := ![-10]
def u_max : Vec 1 := ![10]
def Q : Mat 1 1 := Matrix.of ![![1]]
def R : Mat 1 1 := Matrix.of ![![(5 : ℚ)/10000]]

def env : Environment 1 1 :=
  ⟨A, B, u_min, u_max, s_min, s_max, x_min, x_max, Q, R⟩

/-- The single hard-coded gain `Ks = [[-127.36128]]`. -/
def K : Mat 1 1 := Matrix.of ![![-(12736128 : ℚ)/100000]]

/-- Half-space matrix of the hard-coded invariant `invs[0]`. -/
def mat : Mat 2 1 := Matrix.of ![![1], ![-1]]

/-- Bias vector of the hard-coded invariant `invs[0]`. -/
def bias : Vec 2 := ![1, 1]

/-- Lower corner of the hard-coded cover box `covers[0]`. -/
def lower : Vec 1 := ![-1]

/-- Upper corner of the hard-coded cover box `covers[0]`. -/
def upper : Vec 1 := ![1]

/-- Closed-loop step of the cruise system under `u = K x`. -/
def step (x : Vec 1) : Vec 1 := closedStep A B K x

/-- The cruise closed loop is exactly deadbeat:
`A + B K = 0.99501 - 0.0078125 * 127.36128 = 0`. -/
lemma step_eq_zero (x : Vec 1) : step x = ![0] := by
  funext i
  fin_cases i
  simp [step, closedStep, Matrix.mulVec, Matrix.dotProduct, Fin.sum_univ_succ,
    A, B, K]
  ring

end cruise

/-! ## The quadcopter benchmark (`src/benchmarks/quadcopter.py`) -/

namespace quadcopter

def A : Mat 2 2 := Matrix.of ![![1, 1], ![0, 1]]

def B : Mat 2 1 := Matrix.of ![![0], ![1]]

def s_min : Vec 2 := ![-(1 : ℚ)/2, -(1 : ℚ)/2]
def s_max : Vec 2 := ![(1 : ℚ)/2, (1 : ℚ)/2]
def x_min : Vec 2 := ![-1, -1]
def x_max : Vec 2 := ![1, 1]
def u_min : Vec 1 := ![-15]
def u_max : Vec 1 := ![15]
def Q : Mat 2 2 := Matrix.of ![![1, 0], ![0, 0]]
def R : Mat 1 1 := Matrix.of ![![1]]

def env : Environment 2 1 :=
  ⟨A, B, u_min, u_max, s_min, s_max, x_min, x_max, Q, R⟩

/-- The single hard-coded gain `Ks = [[-2, -1]]`. -/
def K : Mat 1 2 := Matrix.of ![![-2, -1]]

/-- Half-space matrix of the hard-coded invariant `invs[0]`. -/
def mat : Mat 4 2 := Matrix.of ![![1, 0], ![-1, 0], ![0, 1], ![0, -1]]

/-- Bias vector of the hard-coded invariant `invs[0]`. -/
def bias : Vec 4 := ![(1 : ℚ)/2, (1 : ℚ)/2, (1 : ℚ)/2, (1 : ℚ)/2]

/-- Lower corner of the hard-coded cover box `covers[0]`. -/
def lower : Vec 2 := ![-(1 : ℚ)/2, -(1 : ℚ)/2]

/-- Upper corner of the hard-coded cover box `covers[0]`. -/
def upper : Vec 2 := ![(1 : ℚ)/2, (1 : ℚ)/2]

/-- Closed-loop step of the quadcopter system under `u = K x`. -/
def step (x : Vec 2) : Vec 2 := closedStep A B K x

lemma step_eval (x : Vec 2) : step x = ![x 0 + x 1, -2 * x 0] := by
  funext i
  fin_cases i <;>
    simp [step, closedStep, Matrix.mulVec, Matrix.dotProduct,
      Fin.sum_univ_succ, A, B, K] <;>
    ring

end quadcopter

/-! ## Claim C1: forward invariance of the hard-coded shield entries -/

/-- C1 counterexample: the quadcopter's hard-coded invariant is not
forward-invariant under `u = K x`.  The state `(1/2, 1/2)` satisfies
`H x ≤ c` but its closed-loop successor `(1, -1)` does not, and the
successor after two steps, `(0, -2)`, even leaves the safety box
`[-1, 1]²` of the quadcopter environment. -/
theorem C1_counterexample :
    inPolytope quadcopter.mat quadcopter.bias ![(1 : ℚ)/2, (1 : ℚ)/2] ∧
    ¬ inPolytope quadcopter.mat quadcopter.bias
        (quadcopter.step ![(1 : ℚ)/2, (1 : ℚ)/2]) ∧
    ¬ quadcopter.env.inSafety
        (quadcopter.step (quadcopter.step ![(1 : ℚ)/2, (1 : ℚ)/2])) := by
  have h1 : quadcopter.step ![(1 : ℚ)/2, (1 : ℚ)/2] = ![1, -1] := by
    rw [quadcopter.step_eval]
    funext i
    fin_cases i <;> norm_num
  have h2 : quadcopter.step ![(1 : ℚ), -1] = ![0, -2] := by
    rw [quadcopter.step_eval]
    funext i
    fin_cases i <;> norm_num
  refine ⟨?_, ?_, ?_⟩
  · intro i
    fin_cases i <;>
      simp [inPolytope, Matrix.mulVec, Matrix.dotProduct, Fin.sum_univ_succ,
        quadcopter.mat, quadcopter.bias] <;>
      norm_num
  · rw [h1]
    intro h
    have := h 0
    simp [Matrix.mulVec, Matrix.dotProduct, Fin.sum_univ_succ,
      quadcopter.mat, quadcopter.bias] at this
    norm_num at this
  · rw [h1, h2]
    intro h
    have := (h 1).1
    simp [quadcopter.env, quadcopter.x_min, Environment.inSafety] at this

/-- C1 (amended): the cruise benchmark's hard-coded shield entry is
forward-invariant.  Every state `x` with `H x ≤ c` (i.e. `|x| ≤ 1`) stays
inside the invariant and inside the safety bounds `[-1.5, 1.5]` at every
future closed-loop step `x ↦ A x + B (K x)`; indeed the closed loop is
deadbeat, mapping every state to `0`. -/
theorem C1_cruise_forward_invariance (x : Vec 1)
    (hx : inPolytope cruise.mat cruise.bias x) (t : ℕ) :
    inPolytope cruise.mat cruise.bias (cruise.step^[t] x) ∧
    cruise.env.inSafety (cruise.step^[t] x) := by
  have hx0u : x 0 ≤ 1 := by
    have := hx 0
    simpa [Matrix.mulVec, Matrix.dotProduct, Fin.sum_univ_succ,
      cruise.mat, cruise.bias] using this
  have hx0l : -1 ≤ x 0 := by
    have := hx 1
    simp [Matrix.mulVec, Matrix.dotProduct, Fin.sum_univ_succ,
      cruise.mat, cruise.bias] at this
    linarith
  cases t with
  | zero =>
    refine ⟨by simpa using hx, ?_⟩
    intro i
    fin_cases i
    simp [cruise.env, cruise.x_min, cruise.x_max, Environment.inSafety]
    constructor <;> linarith
  | succ s =>
    have hzero : cruise.step^[s + 1] x = ![0] := by
      rw [Function.iterate_succ_apply, cruise.step_eq_zero x]
      have hfix : cruise.step ![0] = ![0] := cruise.step_eq_zero ![0]
      exact Function.iterate_fixed hfix s
    rw [hzero]
    constructor
    · intro i
      fin_cases i <;>
        simp [inPolytope, Matrix.mulVec, Matrix.dotProduct,
          Fin.sum_univ_succ, cruise.mat, cruise.bias] <;>
        norm_num
    · intro i
      fin_cases i
      simp [cruise.env, cruise.x_min, cruise.x_max, Environment.inSafety]
      norm_num

/-! ## The 4-car-platoon benchmark (`src/benchmarks/4-car-platoon.py`) -/

namespace carplatoon4

def A : Mat 7 7 := Matrix.of
  ![![1, 0, 0, 0, 0, 0, 0],
    ![0, 1, (1 : ℚ)/10, 0, 0, 0, 0],
    ![0, 0, 1, 0, 0, 0, 0],
    ![0, 0, 0, 1, (1 : ℚ)/10, 0, 0],
    ![0, 0, 0, 0, 1, 0, 0],
    ![0, 0, 0, 0, 0, 1, (1 : ℚ)/10],
    ![0, 0, 0, 0, 0, 0, 1]]

def B : Mat 7 4 := Matrix.of
  ![![(1 : ℚ)/10, 0, 0, 0],
    ![0, 0, 0, 0],
    ![(1 : ℚ)/10, -(1 : ℚ)/10, 0, 0],
    ![0, 0, 0, 0],
    ![0, (1 : ℚ)/10, -(1 : ℚ)/10, 0],
    ![0, 0, 0, 0],
    ![0, 0, (1 : ℚ)/10, -(1 : ℚ)/10]]

/-- `s_min` before the coordinate transformation. -/
def s_min_raw : Vec 7 :=
  ![(199 : ℚ)/10, (9 : ℚ)/10, -(1 : ℚ)/10, (9 : ℚ)/10, -(1 : ℚ)/10,
    (9 : ℚ)/10, -(1 : ℚ)/10]

/-- `s_max` before the coordinate transformation. -/
def s_max_raw : Vec 7 :=
  ![(201 : ℚ)/10, (11 : ℚ)/10, (1 : ℚ)/10, (11 : ℚ)/10, (1 : ℚ)/10,
    (11 : ℚ)/10, (1 : ℚ)/10]

def Q : Mat 7 7 := fun i j => if i = j then 1 else 0

def R : Mat 4 4 := fun i j => if i = j then (5 : ℚ)/10000 else 0

/-- `x_min` before the coordinate transformation. -/
def x_min_raw : Vec 7 :=
  ![18, (1 : ℚ)/2, -(35 : ℚ)/100, (1 : ℚ)/2, -1, (1 : ℚ)/2, -1]

/-- `x_max` before the coordinate transformation. -/
def x_max_raw : Vec 7 :=
  ![22, (3 : ℚ)/2, (35 : ℚ)/100, (3 : ℚ)/2, 1, (3 : ℚ)/2, 1]

def u_min : Vec 4 := ![-10, -10, -10, -10]
def u_max : Vec 4 := ![10, 10, 10, 10]

/-- The operating-point origin of the coordinate transformation. -/
def origin : Vec 7 := ![20, 1, 0, 1, 0, 1, 0]

/-- `s_min -= origin` (applied once). -/
def s_min : Vec 7 := fun i => s_min_raw i - origin i

/-- `s_max -= origin` (applied once). -/
def s_max : Vec 7 := fun i => s_max_raw i - origin i

/-- `x_min -= origin` (applied once). -/
def x_min : Vec 7 := fun i => x_min_raw i - origin i

/-- `x_max -= origin` (applied once). -/
def x_max : Vec 7 := fun i => x_max_raw i - origin i

def env : Environment 7 4 :=
  ⟨A, B, u_min, u_max, s_min, s_max, x_min, x_max, Q, R⟩

/-- The hard-coded gain `Ks[0]`. -/
def K : Mat 4 7 := Matrix.of
  ![![-10, 0, 0, 0, 0, 0, 0],
    ![-10, 0, 10, 0, 0, 0, 0],
    ![-10, 0, 10, 0, 10, 0, 0],
    ![-10, 0, 10, 0, 10, 0, 10]]

/-- The loop-built half-space matrix `mat` (14 rows, `±eᵢ` per axis). -/
def mat : Mat (2 * 7) 7 := intervalMat 7

/-- The loop-built bias `bias[2i] = bias[2i+1] = s_max[i]` (shifted `s_max`). -/
def bias : Vec (2 * 7) := intervalBias s_max

/-- The loop-built cover lower corner `lower[i] = s_min[i]`. -/
def lower : Vec 7 := s_min

/-- The loop-built cover upper corner `upper[i] = s_max[i]`. -/
def upper : Vec 7 := s_max

end carplatoon4

/-! ## The magnetic-pointer benchmark (`src/benchmarks/magnetic-pointer.py`) -/

namespace magneticpointer

def A : Mat 3 3 := Matrix.of
  ![![(26629 : ℚ)/10000, -(11644 : ℚ)/10000, (66598 : ℚ)/100000],
    ![2, 0, 0],
    ![0, (1 : ℚ)/2, 0]]

def B : Mat 3 1 := Matrix.of ![![(1 : ℚ)/4], ![0], ![0]]

def s_min : Vec 3 := ![-1, -1, -1]
def s_max : Vec 3 := ![1, 1, 1]
def Q : Mat 3 3 := Matrix.of ![![1, 0, 0], ![0, 1, 0], ![0, 0, 1]]
def R : Mat 1 1 := Matrix.of ![![1]]
def x_min : Vec 3 := ![-(7 : ℚ)/2, -(7 : ℚ)/2, -(7 : ℚ)/2]
def x_max : Vec 3 := ![(7 : ℚ)/2, (7 : ℚ)/2, (7 : ℚ)/2]
def u_min : Vec 1 := ![-15]
def u_max : Vec 1 := ![15]

def env : Environment 3 1 :=
  ⟨A, B, u_min, u_max, s_min, s_max, x_min, x_max, Q, R⟩

/-- The hard-coded gain `Ks[0] = [[-10, 0, 0]]`. -/
def K : Mat 1 3 := Matrix.of ![![-10, 0, 0]]

/-- The loop-built half-space matrix (6 rows, `±eᵢ` per axis). -/
def mat : Mat (2 * 3) 3 := intervalMat 3

/-- The loop-built bias `bias[2i] = bias[2i+1] = s_max[i]`. -/
def bias : Vec (2 * 3) := intervalBias s_max

/-- The loop-built cover lower corner `lower[i] = s_min[i]`. -/
def lower : Vec 3 := s_min

/-- The loop-built cover upper corner `upper[i] = s_max[i]`. -/
def upper : Vec 3 := s_max

end magneticpointer

/-! ## The 8-car-platoon entry point (`src/back/8-car-platoon_ddpg_shield.py`) -/

namespace carplatoon8

def A : Mat 15 15 := Matrix.of
  ![![1, 0, 0, 0, 0, 0, 0, 0, 0, 0, 0, 0, 0, 0, 0],
    ![0, 1, (1 : ℚ)/10, 0, 0, 0, 0, 0, 0, 0, 0, 0, 0, 0, 0],
    ![0, 0, 1, 0, 0, 0, 0, 0, 0, 0, 0, 0, 0, 0, 0],
    ![0, 0, 0, 1, (1 : ℚ)/10, 0, 0, 0, 0, 0, 0, 0, 0, 0, 0],
    ![0, 0, 0, 0, 1, 0, 0, 0, 0, 0, 0, 0, 0, 0, 0],
    ![0, 0, 0, 0, 0, 1, (1 : ℚ)/10, 0, 0, 0, 0, 0, 0, 0, 0],
    ![0, 0, 0, 0, 0, 0, 1, 0, 0, 0, 0, 0, 0, 0, 0],
    ![0, 0, 0, 0, 0, 0, 0, 1, (1 : ℚ)/10, 0, 0, 0, 0, 0, 0],
    ![0, 0, 0, 0, 0, 0, 0, 0, 1, 0, 0, 0, 0, 0, 0],
    ![0, 0, 0, 0, 0, 0, 0, 0, 0, 1, (1 : ℚ)/10, 0, 0, 0, 0],
    ![0, 0, 0, 0, 0, 0, 0, 0, 0, 0, 1, 0, 0, 0, 0],
    ![0, 0, 0, 0, 0, 0, 0, 0, 0, 0, 0, 1, (1 : ℚ)/10, 0, 0],
    ![0, 0, 0, 0, 0, 0, 0, 0, 0, 0, 0, 0, 1, 0, 0],
    ![0, 0, 0, 0, 0, 0, 0, 0, 0, 0, 0, 0, 0, 1, (1 : ℚ)/10],
    ![0, 0, 0, 0, 0, 0, 0, 0, 0, 0, 0, 0, 0, 0, 1]]

def B : Mat 15 8 := Matrix.of
  ![![(1 : ℚ)/10, 0, 0, 0, 0, 0, 0, 0],
    ![0, 0, 0, 0, 0, 0, 0, 0],
    ![(1 : ℚ)/10, -(1 : ℚ)/10, 0, 0, 0, 0, 0, 0],
    ![0, 0, 0, 0, 0, 0, 0, 0],
    ![0, (1 : ℚ)/10, -(1 : ℚ)/10, 0, 0, 0, 0, 0],
    ![0, 0, 0, 0, 0, 0, 0, 0],
    ![0, 0, (1 : ℚ)/10, -(1 : ℚ)/10, 0, 0, 0, 0],
    ![0, 0, 0, 0, 0, 0, 0, 0],
    ![0, 0, 0, (1 : ℚ)/10, -(1 : ℚ)/10, 0, 0, 0],
    ![0, 0, 0, 0, 0, 0, 0, 0],
    ![0, 0, 0, 0, (1 : ℚ)/10, -(1 : ℚ)/10, 0, 0],
    ![0, 0, 0, 0, 0, 0, 0, 0],
    ![0, 0, 0, 0, 0, (1 : ℚ)/10, -(1 : ℚ)/10, 0],
    ![0, 0, 0, 0, 0, 0, 0, 0],
    ![0, 0, 0, 0, 0, 0, (1 : ℚ)/10, -(1 : ℚ)/10]]

/-- `s_min` before the coordinate transformation. -/
def s_min_raw : Vec 15 :=
  ![(199 : ℚ)/10, (9 : ℚ)/10, -(1 : ℚ)/10, (9 : ℚ)/10, -(1 : ℚ)/10,
    (9 : ℚ)/10, -(1 : ℚ)/10, (9 : ℚ)/10, -(1 : ℚ)/10, (9 : ℚ)/10,
    -(1 : ℚ)/10, (9 : ℚ)/10, -(1 : ℚ)/10, (9 : ℚ)/10, -(1 : ℚ)/10]

/-- `s_max` before the coordinate transformation. -/
def s_max_raw : Vec 15 :=
  ![(201 : ℚ)/10, (11 : ℚ)/10, (1 : ℚ)/10, (11 : ℚ)/10, (1 : ℚ)/10,
    (11 : ℚ)/10, (1 : ℚ)/10, (11 : ℚ)/10, (1 : ℚ)/10, (11 : ℚ)/10,
    (1 : ℚ)/10, (11 : ℚ)/10, (1 : ℚ)/10, (11 : ℚ)/10, (1 : ℚ)/10]

def Q : Mat 15 15 := fun i j => if i = j then 1 else 0

def R : Mat 8 8 := fun i j => if i = j then (5 : ℚ)/10000 else 0

/-- `x_min` before the coordinate transformation. -/
def x_min_raw : Vec 15 :=
  ![18, (1 : ℚ)/2, -1, (1 : ℚ)/2, -1, (1 : ℚ)/2, -1, (1 : ℚ)/2, -1,
    (1 : ℚ)/2, -1, (1 : ℚ)/2, -1, (1 : ℚ)/2, -1]

/-- `x_max` before the coordinate transformation. -/
def x_max_raw : Vec 15 :=
  ![22, (3 : ℚ)/2, 1, (3 : ℚ)/2, 1, (3 : ℚ)/2, 1, (3 : ℚ)/2, 1,
    (3 : ℚ)/2, 1, (3 : ℚ)/2, 1, (3 : ℚ)/2, 1]

def u_min : Vec 8 := fun _ => -10
def u_max : Vec 8 := fun _ => 10

/-- The operating-point origin of the coordinate transformation. -/
def origin : Vec 15 :=
  ![20, 1, 0, 1, 0, 1, 0, 1, 0, 1, 0, 1, 0, 1, 0]

/-- `s_min -= origin` (applied once). -/
def s_min : Vec 15 := fun i => s_min_raw i - origin i

/-- `s_max -= origin` (applied once). -/
def s_max : Vec 15 := fun i => s_max_raw i - origin i

/-- `x_min -= origin` (applied once). -/
def x_min : Vec 15 := fun i => x_min_raw i - origin i

/-- `x_max -= origin` (applied once). -/
def x_max : Vec 15 := fun i => x_max_raw i - origin i

def env : Environment 15 8 :=
  ⟨A, B, u_min, u_max, s_min, s_max, x_min, x_max, Q, R⟩

end carplatoon8

/-! ## Claim C2: cover soundness of the hard-coded shield entries -/

/-- C2: at each of the four benchmark construction sites, the half-space
region `{x : H x ≤ c}` is contained in the axis-aligned cover box
`[lower, upper]` paired with it. -/
theorem C2_cover_soundness :
    (∀ x : Vec 1, inPolytope cruise.mat cruise.bias x →
      inBox cruise.lower cruise.upper x) ∧
    (∀ x : Vec 2, inPolytope quadcopter.mat quadcopter.bias x →
      inBox quadcopter.lower quadcopter.upper x) ∧
    (∀ x : Vec 7, inPolytope carplatoon4.mat carplatoon4.bias x →
      inBox carplatoon4.lower carplatoon4.upper x) ∧
    (∀ x : Vec 3, inPolytope magneticpointer.mat magneticpointer.bias x →
      inBox magneticpointer.lower magneticpointer.upper x) := by
  refine ⟨?_, ?_, ?_, ?_⟩
  · intro x hx
    have h0 := hx 0
    have h1 := hx 1
    simp [Matrix.mulVec, Matrix.dotProduct, Fin.sum_univ_succ,
      cruise.mat, cruise.bias] at h0 h1
    intro i
    fin_cases i
    simp [cruise.lower, cruise.upper]
    constructor <;> linarith
  · intro x hx
    have h0 := hx 0
    have h1 := hx 1
    have h2 := hx 2
    have h3 := hx 3
    simp [Matrix.mulVec, Matrix.dotProduct, Fin.sum_univ_succ,
      quadcopter.mat, quadcopter.bias] at h0 h1 h2 h3
    intro i
    fin_cases i <;>
      · simp [quadcopter.lower, quadcopter.upper]
        constructor <;> linarith
  · intro x hx
    refine intervalMat_cover carplatoon4.s_min carplatoon4.s_max ?_ x hx
    intro i
    fin_cases i <;>
      norm_num [carplatoon4.s_min, carplatoon4.s_max, carplatoon4.s_min_raw,
        carplatoon4.s_max_raw, carplatoon4.origin]
  · intro x hx
    refine intervalMat_cover magneticpointer.s_min magneticpointer.s_max ?_ x hx
    intro i
    fin_cases i <;>
      norm_num [magneticpointer.s_min, magneticpointer.s_max]

/-- Witness for `C2_cover_soundness`: at the origin of each state space the
polytope-membership hypothesis holds and the box membership follows. -/
theorem C2_cover_soundness_witness :
    (inPolytope cruise.mat cruise.bias (fun _ => 0) ∧
      inBox cruise.lower cruise.upper (fun _ => 0)) ∧
    (inPolytope quadcopter.mat quadcopter.bias (fun _ => 0) ∧
      inBox quadcopter.lower quadcopter.upper (fun _ => 0)) ∧
    (inPolytope carplatoon4.mat carplatoon4.bias (fun _ => 0) ∧
      inBox carplatoon4.lower carplatoon4.upper (fun _ => 0)) ∧
    (inPolytope magneticpointer.mat magneticpointer.bias (fun _ => 0) ∧
      inBox magneticpointer.lower magneticpointer.upper (fun _ => 0)) := by
  have hc : inPolytope cruise.mat cruise.bias (fun _ => 0) := by
    intro i
    fin_cases i <;>
      simp [Matrix.mulVec, Matrix.dotProduct, Fin.sum_univ_succ,
        cruise.mat, cruise.bias] <;>
      norm_num
  have hq : inPolytope quadcopter.mat quadcopter.bias (fun _ => 0) := by
    intro i
    fin_cases i <;>
      simp [Matrix.mulVec, Matrix.dotProduct, Fin.sum_univ_succ,
        quadcopter.mat, quadcopter.bias] <;>
      norm_num
  have hp : inPolytope carplatoon4.mat carplatoon4.bias (fun _ => 0) := by
    intro i
    have : (carplatoon4.mat.mulVec (fun _ => 0)) i = 0 := by
      simp [carplatoon4.mat, Matrix.mulVec, Matrix.dotProduct]
    rw [this]
    have hi : i.val / 2 < 7 := by omega
    unfold carplatoon4.bias intervalBias
    norm_num [carplatoon4.s_max, carplatoon4.s_max_raw, carplatoon4.origin]
    fin_cases i <;> norm_num
  have hm : inPolytope magneticpointer.mat magneticpointer.bias (fun _ => 0) := by
    intro i
    have : (magneticpointer.mat.mulVec (fun _ => 0)) i = 0 := by
      simp [magneticpointer.mat, Matrix.mulVec, Matrix.dotProduct]
    rw [this]
    unfold magneticpointer.bias intervalBias
    fin_cases i <;> norm_num [magneticpointer.s_max]
  exact ⟨⟨hc, C2_cover_soundness.1 (fun _ => 0) hc⟩,
    ⟨hq, C2_cover_soundness.2.1 (fun _ => 0) hq⟩,
    ⟨hp, C2_cover_soundness.2.2.1 (fun _ => 0) hp⟩,
    ⟨hm, C2_cover_soundness.2.2.2 (fun _ => 0) hm⟩⟩

/-! ## Claim C8: the operating-point origin is subtracted exactly once -/

/-- C8: at the two entry points that define an operating-point origin, each
of the four bound boxes handed to the `Environment` constructor equals the
raw bound vector minus the origin vector; the concrete equalities spell out
the numbers, showing the shift is applied exactly once (e.g. the platoon
initial box becomes `[-0.1, 0.1]` per axis, not `[-20.1, -19.9]` etc.). -/
theorem C8_origin_subtracted_once :
    ((∀ i, carplatoon4.env.s_min i = carplatoon4.s_min_raw i - carplatoon4.origin i) ∧
     (∀ i, carplatoon4.env.s_max i = carplatoon4.s_max_raw i - carplatoon4.origin i) ∧
     (∀ i, carplatoon4.env.x_min i = carplatoon4.x_min_raw i - carplatoon4.origin i) ∧
     (∀ i, carplatoon4.env.x_max i = carplatoon4.x_max_raw i - carplatoon4.origin i)) ∧
    ((∀ i, carplatoon8.env.s_min i = carplatoon8.s_min_raw i - carplatoon8.origin i) ∧
     (∀ i, carplatoon8.env.s_max i = carplatoon8.s_max_raw i - carplatoon8.origin i) ∧
     (∀ i, carplatoon8.env.x_min i = carplatoon8.x_min_raw i - carplatoon8.origin i) ∧
     (∀ i, carplatoon8.env.x_max i = carplatoon8.x_max_raw i - carplatoon8.origin i)) ∧
    (∀ i, carplatoon4.env.s_min i = -(1 : ℚ)/10 ∧ carplatoon4.env.s_max i = (1 : ℚ)/10) ∧
    (∀ i, carplatoon8.env.s_min i = -(1 : ℚ)/10 ∧ carplatoon8.env.s_max i = (1 : ℚ)/10) ∧
    carplatoon4.env.x_min 0 = -2 ∧ carplatoon4.env.x_max 0 = 2 ∧
    carplatoon8.env.x_min 0 = -2 ∧ carplatoon8.env.x_max 0 = 2 := by
  refine ⟨⟨fun i => rfl, fun i => rfl, fun i => rfl, fun i => rfl⟩,
    ⟨fun i => rfl, fun i => rfl, fun i => rfl, fun i => rfl⟩, ?_, ?_, ?_, ?_, ?_, ?_⟩
  · intro i
    fin_cases i <;>
      constructor <;>
      norm_num [carplatoon4.env, carplatoon4.s_min, carplatoon4.s_max,
        carplatoon4.s_min_raw, carplatoon4.s_max_raw, carplatoon4.origin]
  · intro i
    fin_cases i <;>
      constructor <;>
      norm_num [carplatoon8.env, carplatoon8.s_min, carplatoon8.s_max,
        carplatoon8.s_min_raw, carplatoon8.s_max_raw, carplatoon8.origin]
  · norm_num [carplatoon4.env, carplatoon4.x_min, carplatoon4.x_min_raw,
      carplatoon4.origin]
  · norm_num [carplatoon4.env, carplatoon4.x_max, carplatoon4.x_max_raw,
      carplatoon4.origin]
  · norm_num [carplatoon8.env, carplatoon8.x_min, carplatoon8.x_min_raw,
      carplatoon8.origin]
  · norm_num [carplatoon8.env, carplatoon8.x_max, carplatoon8.x_max_raw,
      carplatoon8.origin]

/-- Witness for `C1_cruise_forward_invariance` at `x = 4/5`, `t = 3`. -/
theorem C1_cruise_forward_invariance_witness :
    inPolytope cruise.mat cruise.bias ![(4 : ℚ)/5] ∧
    (inPolytope cruise.mat cruise.bias (cruise.step^[3] ![(4 : ℚ)/5]) ∧
     cruise.env.inSafety (cruise.step^[3] ![(4 : ℚ)/5])) := by
  have hhyp : inPolytope cruise.mat cruise.bias ![(4 : ℚ)/5] := by
    intro i
    fin_cases i <;>
      simp [inPolytope, Matrix.mulVec, Matrix.dotProduct, Fin.sum_univ_succ,
        cruise.mat, cruise.bias] <;>
      norm_num
  exact ⟨hhyp, C1_cruise_forward_invariance ![(4 : ℚ)/5] hhyp 3⟩

/-! ## The solver wrapper (`src/pympc/optimization/solvers/gurobi.py`) -/

namespace gurobi

/-- Gurobi optimization status as observed by the wrapper: it only
distinguishes `OPTIMAL` from everything else. -/
inductive Status
  | OPTIMAL
  | INFEASIBLE
  | UNBOUNDED
  | OTHER
deriving DecidableEq

/-- Abstraction of a `gurobipy` model after `optimize()`: exactly the
attributes the wrapper reads back.  `objVal` and `xOpt` are the primal
solution, `piIneq i` / `piEq i` are the `Pi` attributes of constraints
`ineq_i` / `eq_i`, and `cbasis i` is the `CBasis` attribute of `ineq_i`. -/
structure Model (nineq neq nvar : ℕ) where
  status : Status
  objVal : ℚ
  xOpt : Vec nvar
  piIneq : Vec nineq
  piEq : Vec neq
  cbasis : Fin nineq → ℤ

/-- A value stored in the solution dictionary; `SolVal.none` is Python's
`None`. -/
inductive SolVal (nineq neq nvar : ℕ)
  | none
  | num (q : ℚ)
  | point (v : Vec nvar)
  | idxs (l : List ℕ)
  | vecIneq (v : Vec nineq)
  | vecEq (v : Vec neq)

/-- The solution dictionary.  The wrapper only ever touches the five fixed
keys, so the Python `dict` is embedded as a record with one `Option` field
per key: `Option.none` models the key being absent from the dictionary and
`some SolVal.none` models the key being present with value `None`. -/
@[ext]
structure Sol (nineq neq nvar : ℕ) where
  min : Option (SolVal nineq neq nvar)
  argmin : Option (SolVal nineq neq nvar)
  active_set : Option (SolVal nineq neq nvar)
  multiplier_inequality : Option (SolVal nineq neq nvar)
  multiplier_equality : Option (SolVal nineq neq nvar)

/-- The list of keys present in the dictionary, in the insertion order of
`_reorganize_solution`. -/
def Sol.keyList {nineq neq nvar : ℕ} (s : Sol nineq neq nvar) : List String :=
  (if s.min.isSome then ["min"] else []) ++
  (if s.argmin.isSome then ["argmin"] else []) ++
  (if s.active_set.isSome then ["active_set"] else []) ++
  (if s.multiplier_inequality.isSome then ["multiplier_inequality"] else []) ++
  (if s.multiplier_equality.isSome then ["multiplier_equality"] else [])

/-- `_reorganize_solution(model, A, C, continuous)`: initializes
`{'min': None, 'argmin': None}`, adds the `active_set` /
`multiplier_inequality` / `multiplier_equality` keys (as `None`) only when
`continuous`, and fills in the primal solution and the dual multipliers
(`-Pi`) when the model reached `OPTIMAL`.  `hasC` records whether equality
constraints were passed (`C is not None`). -/
def _reorganize_solution {nineq neq nvar : ℕ} (model : Model nineq neq nvar)
    (hasC : Bool) (continuous : Bool) : Sol nineq neq nvar :=
  let sol : Sol nineq neq nvar :=
    { min := some .none, argmin := some .none,
      active_set := if continuous then some .none else Option.none,
      multiplier_inequality := if continuous then some .none else Option.none,
      multiplier_equality := if continuous then some .none else Option.none }
  if model.status = .OPTIMAL then
    let sol := { sol with min := some (.num model.objVal),
                          argmin := some (.point model.xOpt) }
    if continuous then
      let sol := { sol with
        multiplier_inequality := some (.vecIneq (fun i => -model.piIneq i)) }
      if hasC ∧ 0 < neq then
        { sol with multiplier_equality := some (.vecEq (fun i => -model.piEq i)) }
      else sol
    else sol
  else sol

/-- The active set computed by `linear_program`: the inequality rows whose
`CBasis` attribute is `-1` (the loop over `range(A.shape[0])` appends the
indices in increasing order). -/
def lpActiveSet {nineq neq nvar : ℕ} (model : Model nineq neq nvar) : List ℕ :=
  ((List.finRange nineq).filter (fun i => decide (model.cbasis i = -1))).map Fin.val

/-- The active set computed by `quadratic_program`:
`np.where(sol['multiplier_inequality'] > tol)[0]`, where the stored
multiplier of row `i` is `-Pi i`. -/
def qpActiveSet {nineq neq nvar : ℕ} (model : Model nineq neq nvar)
    (tol : ℚ) : List ℕ :=
  ((List.finRange nineq).filter (fun i => decide (tol < -model.piIneq i))).map Fin.val

/-- `linear_program`: reorganize the solution (continuous), then, when
optimal, set `active_set` from the `CBasis` attributes. -/
def linear_program {nineq neq nvar : ℕ} (model : Model nineq neq nvar)
    (hasC : Bool) : Sol nineq neq nvar :=
  let sol := _reorganize_solution model hasC true
  if model.status = .OPTIMAL then
    { sol with active_set := some (.idxs (lpActiveSet model)) }
  else sol

/-- `quadratic_program`: reorganize the solution (continuous), then, when
optimal, set `active_set` from the multipliers and the threshold `tol`
(default `1e-5`). -/
def quadratic_program {nineq neq nvar : ℕ} (model : Model nineq neq nvar)
    (hasC : Bool) (tol : ℚ) : Sol nineq neq nvar :=
  let sol := _reorganize_solution model hasC true
  if model.status = .OPTIMAL then
    { sol with active_set := some (.idxs (qpActiveSet model tol)) }
  else sol

/-- `mixed_integer_quadratic_program`: reorganize with `continuous=False`;
no active set or multipliers are ever attached. -/
def mixed_integer_quadratic_program {nineq neq nvar : ℕ}
    (model : Model nineq neq nvar) (hasC : Bool) : Sol nineq neq nvar :=
  _reorganize_solution model hasC false

/-- Gurobi variable type: `_build_model` creates all variables continuous;
`mixed_integer_quadratic_program` flips a range of them to binary. -/
inductive VType
  | continuous
  | binary
deriving DecidableEq

/-- `x[i].setAttr('vtype', GRB.BINARY)` for a single index. -/
def setVtype (v : ℕ → VType) (i : ℕ) : ℕ → VType :=
  fun j => if j = i then .binary else v j

/-- The variable types after the `for i in range(nc, A.shape[1])` loop of
`mixed_integer_quadratic_program`, starting from the all-continuous
variables created by `_build_model`. -/
def miqp_vtypes (nc ncols : ℕ) : ℕ → VType :=
  (List.range' nc (ncols - nc)).foldl setVtype (fun _ => .continuous)

/-- The inequality rows tight at the point `x`: `{i | A_i x = b_i}` as an
increasing list of indices. -/
def tightRows {k n : ℕ} (A : Mat k n) (b : Vec k) (x : Vec n) : List ℕ :=
  ((List.finRange k).filter (fun i => decide (A.mulVec x i = b i))).map Fin.val

/-- One Gurobi linear expression `A_i x + b_i` as built by
`linear_expression`: the variable terms `(coefficient, variable)` added, in
loop order, and the constant offsets added (empty or a singleton list). -/
structure LinExpr (n : ℕ) where
  terms : List (ℚ × Fin n)
  offsets : List ℚ

/-- The default tolerance `tol=1.e-10` of `linear_expression`. -/
def linTol : ℚ := 1/10000000000

/-- The default tolerance `tol=1.e-7` of `quadratic_expression`. -/
def quadTol : ℚ := 1/10000000

/-- `linear_expression(A, b, x, tol)`: for each row `i`, add the term
`A[i,j]*x[j]` only when `|A[i,j]| > tol`, then add the offset `b[i]` only
when `|b[i]| > tol`. -/
def linear_expression {m n : ℕ} (A : Mat m n) (b : Vec m) (tol : ℚ) :
    Fin m → LinExpr n := fun i =>
  { terms := ((List.finRange n).filter (fun j => decide (tol < |A i j|))).map
      (fun j => (A i j, j)),
    offsets := if tol < |b i| then [b i] else [] }

/-- `quadratic_expression(H, x, tol)`: the terms `x[i]*H[i,j]*x[j]` added,
in loop order, each only when `|H[i,j]| > tol`; a term is recorded as
`(i, H i j, j)`. -/
def quadratic_expression {n : ℕ} (H : Mat n n) (tol : ℚ) :
    List (Fin n × ℚ × Fin n) :=
  (List.finRange n).flatMap (fun i =>
    ((List.finRange n).filter (fun j => decide (tol < |H i j|))).map
      (fun j => (i, H i j, j)))

/-- Projection lemma: the `min` field after `_reorganize_solution`. -/
lemma reorganize_min {nineq neq nvar : ℕ} (model : Model nineq neq nvar)
    (hasC cont : Bool) :
    (_reorganize_solution model hasC cont).min =
      if model.status = .OPTIMAL then some (.num model.objVal) else some .none := by
  unfold _reorganize_solution
  by_cases h : model.status = .OPTIMAL <;> cases cont <;>
    by_cases hC : (hasC : Prop) ∧ 0 < neq <;> simp [h, hC]

/-- Projection lemma: the `argmin` field after `_reorganize_solution`. -/
lemma reorganize_argmin {nineq neq nvar : ℕ} (model : Model nineq neq nvar)
    (hasC cont : Bool) :
    (_reorganize_solution model hasC cont).argmin =
      if model.status = .OPTIMAL then some (.point model.xOpt) else some .none := by
  unfold _reorganize_solution
  by_cases h : model.status = .OPTIMAL <;> cases cont <;>
    by_cases hC : (hasC : Prop) ∧ 0 < neq <;> simp [h, hC]

/-- Projection lemma: the `active_set` field after `_reorganize_solution`. -/
lemma reorganize_active_set {nineq neq nvar : ℕ} (model : Model nineq neq nvar)
    (hasC cont : Bool) :
    (_reorganize_solution model hasC cont).active_set =
      if cont then some .none else Option.none := by
  unfold _reorganize_solution
  by_cases h : model.status = .OPTIMAL <;> cases cont <;>
    by_cases hC : (hasC : Prop) ∧ 0 < neq <;> simp [h, hC]

/-- Projection lemma: the `multiplier_inequality` field after
`_reorganize_solution`. -/
lemma reorganize_multiplier_inequality {nineq neq nvar : ℕ}
    (model : Model nineq neq nvar) (hasC cont : Bool) :
    (_reorganize_solution model hasC cont).multiplier_inequality =
      if cont then
        (if model.status = .OPTIMAL then
          some (.vecIneq (fun i => -model.piIneq i)) else some .none)
      else Option.none := by
  unfold _reorganize_solution
  by_cases h : model.status = .OPTIMAL <;> cases cont <;>
    by_cases hC : (hasC : Prop) ∧ 0 < neq <;> simp [h, hC]

/-- Projection lemma: the `multiplier_equality` field after
`_reorganize_solution`. -/
lemma reorganize_multiplier_equality {nineq neq nvar : ℕ}
    (model : Model nineq neq nvar) (hasC cont : Bool) :
    (_reorganize_solution model hasC cont).multiplier_equality =
      if cont then
        (if model.status = .OPTIMAL then
          (if hasC ∧ 0 < neq then some (.vecEq (fun i => -model.piEq i))
           else some .none)
         else some .none)
      else Option.none := by
  unfold _reorganize_solution
  by_cases h : model.status = .OPTIMAL <;> cases cont <;>
    by_cases hC : (hasC : Prop) ∧ 0 < neq <;> simp [h, hC]

/-- The all-`None` dictionary returned for infeasible/unbounded continuous
programs. -/
def allNoneSol (nineq neq nvar : ℕ) : Sol nineq neq nvar :=
  { min := some .none, argmin := some .none, active_set := some .none,
    multiplier_inequality := some .none, multiplier_equality := some .none }

/-- A fixture: an infeasible model state. -/
def modelInfeasible : Model 1 0 1 :=
  { status := .INFEASIBLE, objVal := 0, xOpt := fun _ => 0,
    piIneq := fun _ => 0, piEq := fun _ => 0, cbasis := fun _ => 0 }

/-- A fixture: an optimal model state. -/
def modelOptimal : Model 1 0 1 :=
  { status := .OPTIMAL, objVal := 0, xOpt := fun _ => 0,
    piIneq := fun _ => 0, piEq := fun _ => 0, cbasis := fun _ => 0 }

/-- Unfolding lemma for `setVtype` folds: a variable is binary after the
loop exactly when its index was visited. -/
lemma foldl_setVtype (l : List ℕ) (v : ℕ → VType) (i : ℕ) :
    (l.foldl setVtype v) i = if i ∈ l then .binary else v i := by
  induction l generalizing v with
  | nil => simp
  | cons a l ih =>
    simp only [List.foldl_cons, ih, List.mem_cons]
    by_cases hia : i = a
    · subst hia
      simp [setVtype]
    · by_cases hil : i ∈ l <;> simp [setVtype, hia, hil]

end gurobi

/-! ## The tape benchmark (`src/benchmarks/tape.py`): dynamics matrices -/

namespace tape

def A : Mat 3 3 := Matrix.of
  ![![(55197 : ℚ)/10^21, -(35503 : ℚ)/10^21, (62468 : ℚ)/10^36],
    ![(27756 : ℚ)/10^21, 0, 0],
    ![0, (27756 : ℚ)/10^21, 0]]

def B : Mat 3 1 := Matrix.of ![![(1 : ℚ)/4], ![0], ![0]]

end tape

/-! ## Claim C4: solution fields on non-optimal vs optimal termination -/

/-- C4: whenever the model does not reach `OPTIMAL`, `linear_program` and
`quadratic_program` return the dictionary with all five fields `None`;
whenever it does, `min` and `argmin` carry the primal solution and are not
`None`. -/
theorem C4_solution_fields {nineq neq nvar : ℕ}
    (model : gurobi.Model nineq neq nvar) (hasC : Bool) (tol : ℚ) :
    (model.status ≠ .OPTIMAL →
      gurobi.linear_program model hasC = gurobi.allNoneSol nineq neq nvar ∧
      gurobi.quadratic_program model hasC tol = gurobi.allNoneSol nineq neq nvar) ∧
    (model.status = .OPTIMAL →
      (gurobi.linear_program model hasC).min = some (.num model.objVal) ∧
      (gurobi.linear_program model hasC).argmin = some (.point model.xOpt) ∧
      (gurobi.quadratic_program model hasC tol).min = some (.num model.objVal) ∧
      (gurobi.quadratic_program model hasC tol).argmin = some (.point model.xOpt) ∧
      (gurobi.linear_program model hasC).min ≠ some gurobi.SolVal.none ∧
      (gurobi.linear_program model hasC).argmin ≠ some gurobi.SolVal.none ∧
      (gurobi.quadratic_program model hasC tol).min ≠ some gurobi.SolVal.none ∧
      (gurobi.quadratic_program model hasC tol).argmin ≠ some gurobi.SolVal.none) := by
  constructor
  · intro h
    have hifL : gurobi.linear_program model hasC =
        gurobi._reorganize_solution model hasC true := by
      unfold gurobi.linear_program
      rw [if_neg h]
    have hifQ : gurobi.quadratic_program model hasC tol =
        gurobi._reorganize_solution model hasC true := by
      unfold gurobi.quadratic_program
      rw [if_neg h]
    rw [hifL, hifQ]
    have hre : gurobi._reorganize_solution model hasC true =
        gurobi.allNoneSol nineq neq nvar := by
      refine gurobi.Sol.ext ?_ ?_ ?_ ?_ ?_ <;>
        simp [gurobi.reorganize_min, gurobi.reorganize_argmin,
          gurobi.reorganize_active_set, gurobi.reorganize_multiplier_inequality,
          gurobi.reorganize_multiplier_equality, gurobi.allNoneSol, h]
    exact ⟨hre, hre⟩
  · intro h
    have hlp : gurobi.linear_program model hasC =
        { gurobi._reorganize_solution model hasC true with
          active_set := some (.idxs (gurobi.lpActiveSet model)) } := by
      unfold gurobi.linear_program
      rw [if_pos h]
    have hqp : gurobi.quadratic_program model hasC tol =
        { gurobi._reorganize_solution model hasC true with
          active_set := some (.idxs (gurobi.qpActiveSet model tol)) } := by
      unfold gurobi.quadratic_program
      rw [if_pos h]
    rw [hlp, hqp]
    simp [gurobi.reorganize_min, gurobi.reorganize_argmin, h]

/-- Witness for `C4_solution_fields` at an infeasible and at an optimal
fixture. -/
theorem C4_solution_fields_witness :
    (gurobi.linear_program gurobi.modelInfeasible false = gurobi.allNoneSol 1 0 1 ∧
     gurobi.quadratic_program gurobi.modelInfeasible false (1/100000) =
       gurobi.allNoneSol 1 0 1) ∧
    (gurobi.linear_program gurobi.modelOptimal false).min =
      some (.num gurobi.modelOptimal.objVal) := by
  refine ⟨(C4_solution_fields gurobi.modelInfeasible false (1/100000)).1 ?_, ?_⟩
  · intro h
    simp [gurobi.modelInfeasible] at h
  · exact ((C4_solution_fields gurobi.modelOptimal false (1/100000)).2 rfl).1

/-! ## Claim C5: meaning of the returned active set -/

/-- The one-constraint strictly convex QP `min x²  s.t.  x ≤ 0`
used to refute C5: `H = [[2]]`, `f = [0]`, `A = [[1]]`, `b = [0]`. -/
def qpH : Mat 1 1 := Matrix.of ![![2]]
def qpf : Vec 1 := ![0]
def qpA : Mat 1 1 := Matrix.of ![![1]]
def qpb : Vec 1 := ![0]

/-- The exact solution state of that QP: optimum `x = 0`, objective `0`,
inequality multiplier `0` (hence `Pi = 0`).  The KKT conjuncts of
`C5_counterexample` certify that this is the model state an exact solver
reports. -/
def qpModel : gurobi.Model 1 0 1 :=
  { status := .OPTIMAL, objVal := 0, xOpt := fun _ => 0,
    piIneq := fun _ => 0, piEq := fun _ => 0, cbasis := fun _ => -1 }

/-- A second QP fixture, `min x² - 2x  s.t.  x ≤ 0`: optimum `x = 0` with
active multiplier `2` (hence `Pi = -2`). -/
def qpModelActive : gurobi.Model 1 0 1 :=
  { status := .OPTIMAL, objVal := 0, xOpt := fun _ => 0,
    piIneq := fun _ => -2, piEq := fun _ => 0, cbasis := fun _ => -1 }

/-- C5 counterexample: on the QP `min x² s.t. x ≤ 0` the unique optimum is
`x = 0`, where the single inequality row is tight (`A·0 = 0 = b`), yet its
exact Lagrange multiplier is `0 ≤ tol`, so `quadratic_program` returns the
empty active set — not the set of tight rows.  The last four conjuncts are
the KKT conditions (stationarity, primal/dual feasibility, complementary
slackness) showing this model state is the true solver answer. -/
theorem C5_counterexample :
    gurobi.tightRows qpA qpb qpModel.xOpt = [0] ∧
    (gurobi.quadratic_program qpModel false (1/100000)).active_set =
      some (.idxs []) ∧
    (gurobi.quadratic_program qpModel false (1/100000)).active_set ≠
      some (.idxs (gurobi.tightRows qpA qpb qpModel.xOpt)) ∧
    qpH.mulVec qpModel.xOpt 0 + qpf 0 + (-qpModel.piIneq 0) * qpA 0 0 = 0 ∧
    qpA.mulVec qpModel.xOpt 0 ≤ qpb 0 ∧
    0 ≤ -qpModel.piIneq 0 ∧
    (-qpModel.piIneq 0) * (qpb 0 - qpA.mulVec qpModel.xOpt 0) = 0 := by
  have hmv : qpA.mulVec qpModel.xOpt 0 = 0 := by
    simp [qpA, qpModel, Matrix.mulVec, Matrix.dotProduct]
  have htight : gurobi.tightRows qpA qpb qpModel.xOpt = [0] := by
    unfold gurobi.tightRows
    rw [show (List.finRange 1) = [0] from rfl]
    simp [hmv, qpb]
  have hact : gurobi.qpActiveSet qpModel ((1 : ℚ)/100000) = [] := by
    unfold gurobi.qpActiveSet
    rw [show (List.finRange 1) = [0] from rfl]
    norm_num [qpModel]
  have hqp : (gurobi.quadratic_program qpModel false ((1 : ℚ)/100000)).active_set =
      some (.idxs []) := by
    unfold gurobi.quadratic_program
    rw [hact]
    simp [qpModel]
  refine ⟨htight, hqp, ?_, ?_, ?_, ?_, ?_⟩
  · rw [hqp, htight]
    intro h
    simp at h
  · simp [qpH, qpf, qpA, qpModel, Matrix.mulVec, Matrix.dotProduct]
  · rw [hmv]; simp [qpb]
  · simp [qpModel]
  · rw [hmv]; simp [qpModel]

/-- C5 (amended): for an optimal model, `quadratic_program` returns as
active set exactly the rows whose stored multiplier `-Pi` exceeds `tol`,
and `linear_program` exactly the rows whose `CBasis` attribute is `-1`;
under exact complementary slackness (a row with nonzero multiplier is
tight) and a nonnegative threshold, every index in the QP active set names
a tight row — but, as `C5_counterexample` shows, a tight row with a small
multiplier is omitted, so equality with `{i | A_i argmin = b_i}` fails. -/
theorem C5_active_set_amended {nineq neq nvar : ℕ}
    (model : gurobi.Model nineq neq nvar) (hasC : Bool) (tol : ℚ)
    (A : Mat nineq nvar) (b : Vec nineq)
    (hopt : model.status = .OPTIMAL)
    (hcs : ∀ i, -model.piIneq i ≠ 0 → A.mulVec model.xOpt i = b i)
    (htol : 0 ≤ tol) :
    (gurobi.quadratic_program model hasC tol).active_set =
      some (.idxs (gurobi.qpActiveSet model tol)) ∧
    (gurobi.linear_program model hasC).active_set =
      some (.idxs (gurobi.lpActiveSet model)) ∧
    (∀ j, j ∈ gurobi.qpActiveSet model tol →
      j ∈ gurobi.tightRows A b model.xOpt) := by
  refine ⟨?_, ?_, ?_⟩
  · unfold gurobi.quadratic_program
    rw [if_pos hopt]
  · unfold gurobi.linear_program
    rw [if_pos hopt]
  · intro j hj
    unfold gurobi.qpActiveSet at hj
    unfold gurobi.tightRows
    rcases List.mem_map.mp hj with ⟨i, hi, rfl⟩
    rcases List.mem_filter.mp hi with ⟨-, hdec⟩
    have hlt : tol < -model.piIneq i := of_decide_eq_true hdec
    have hne : -model.piIneq i ≠ 0 := by
      intro h0
      rw [h0] at hlt
      exact absurd hlt (not_lt.mpr htol)
    refine List.mem_map.mpr ⟨i, List.mem_filter.mpr ⟨List.mem_finRange i, ?_⟩, rfl⟩
    exact decide_eq_true (hcs i hne)

/-- Witness for `C5_active_set_amended` on the QP `min x² - 2x s.t. x ≤ 0`,
whose optimum `x = 0` has multiplier `2 > tol`. -/
theorem C5_active_set_amended_witness :
    (gurobi.quadratic_program qpModelActive false (1/100000)).active_set =
      some (.idxs (gurobi.qpActiveSet qpModelActive (1/100000))) ∧
    (0 : ℕ) ∈ gurobi.qpActiveSet qpModelActive (1/100000) ∧
    (0 : ℕ) ∈ gurobi.tightRows qpA qpb qpModelActive.xOpt := by
  have hcs : ∀ i, -qpModelActive.piIneq i ≠ 0 →
      qpA.mulVec qpModelActive.xOpt i = qpb i := by
    intro i _
    fin_cases i
    simp [qpA, qpb, qpModelActive, Matrix.mulVec, Matrix.dotProduct]
  have hmem : (0 : ℕ) ∈ gurobi.qpActiveSet qpModelActive ((1 : ℚ)/100000) := by
    unfold gurobi.qpActiveSet
    rw [show (List.finRange 1) = [0] from rfl]
    simp [qpModelActive]
    norm_num
  refine ⟨(C5_active_set_amended qpModelActive false (1/100000) qpA qpb rfl hcs
    (by norm_num)).1, hmem, ?_⟩
  exact (C5_active_set_amended qpModelActive false (1/100000) qpA qpb rfl hcs
    (by norm_num)).2.2 0 hmem

/-! ## Claim C6: continuous vs binary variables in the MIQP -/

/-- C6: in `mixed_integer_quadratic_program`, the first `nc` variables stay
continuous and the variables with indices `nc ≤ i < ncols` (columns of `A`)
are set to binary. -/
theorem C6_miqp_variable_types (nc ncols i : ℕ) :
    (i < nc → gurobi.miqp_vtypes nc ncols i = .continuous) ∧
    (nc ≤ i → i < ncols → gurobi.miqp_vtypes nc ncols i = .binary) := by
  unfold gurobi.miqp_vtypes
  rw [gurobi.foldl_setVtype]
  constructor
  · intro h
    rw [if_neg]
    intro hmem
    have := List.mem_range'_1.mp hmem
    omega
  · intro h1 h2
    rw [if_pos]
    exact List.mem_range'_1.mpr (by omega)

/-- Witness for `C6_miqp_variable_types` at `nc = 2`, `ncols = 4`. -/
theorem C6_miqp_variable_types_witness :
    gurobi.miqp_vtypes 2 4 1 = .continuous ∧
    gurobi.miqp_vtypes 2 4 3 = .binary :=
  ⟨(C6_miqp_variable_types 2 4 1).1 (by norm_num),
   (C6_miqp_variable_types 2 4 3).2 (by norm_num) (by norm_num)⟩

/-! ## Claim C7: which keys each solver call returns -/

/-- C7 counterexample: `mixed_integer_quadratic_program` reorganizes with
`continuous=False`, so its returned dictionary has only the keys `min` and
`argmin`; `active_set`, `multiplier_inequality` and `multiplier_equality`
are absent. -/
theorem C7_counterexample :
    (gurobi.mixed_integer_quadratic_program gurobi.modelOptimal false).keyList =
      ["min", "argmin"] ∧
    (gurobi.mixed_integer_quadratic_program gurobi.modelOptimal false).active_set =
      Option.none ∧
    (gurobi.mixed_integer_quadratic_program gurobi.modelOptimal false).multiplier_inequality =
      Option.none ∧
    (gurobi.mixed_integer_quadratic_program gurobi.modelOptimal false).multiplier_equality =
      Option.none := by
  unfold gurobi.mixed_integer_quadratic_program
  refine ⟨?_, ?_, ?_, ?_⟩
  · unfold gurobi.Sol.keyList
    rw [gurobi.reorganize_min, gurobi.reorganize_argmin,
      gurobi.reorganize_active_set, gurobi.reorganize_multiplier_inequality,
      gurobi.reorganize_multiplier_equality]
    simp [gurobi.modelOptimal]
  · rw [gurobi.reorganize_active_set]
    simp
  · rw [gurobi.reorganize_multiplier_inequality]
    simp
  · rw [gurobi.reorganize_multiplier_equality]
    simp

/-- C7 (amended): `linear_program` and `quadratic_program` always return a
dictionary with all five keys, but `mixed_integer_quadratic_program`
returns one with only `min` and `argmin`. -/
theorem C7_amended_solution_keys {nineq neq nvar : ℕ}
    (model : gurobi.Model nineq neq nvar) (hasC : Bool) (tol : ℚ) :
    (gurobi.linear_program model hasC).keyList =
      ["min", "argmin", "active_set", "multiplier_inequality",
       "multiplier_equality"] ∧
    (gurobi.quadratic_program model hasC tol).keyList =
      ["min", "argmin", "active_set", "multiplier_inequality",
       "multiplier_equality"] ∧
    (gurobi.mixed_integer_quadratic_program model hasC).keyList =
      ["min", "argmin"] := by
  have hm := gurobi.reorganize_min model hasC
  have ha := gurobi.reorganize_argmin model hasC
  have hac := gurobi.reorganize_active_set model hasC
  have hmi := gurobi.reorganize_multiplier_inequality model hasC
  have hme := gurobi.reorganize_multiplier_equality model hasC
  refine ⟨?_, ?_, ?_⟩
  · unfold gurobi.linear_program gurobi.Sol.keyList
    by_cases h : model.status = .OPTIMAL <;>
      simp [h, hm true, ha true, hac true, hmi true, hme true,
        apply_ite Option.isSome]
  · unfold gurobi.quadratic_program gurobi.Sol.keyList
    by_cases h : model.status = .OPTIMAL <;>
      simp [h, hm true, ha true, hac true, hmi true, hme true,
        apply_ite Option.isSome]
  · unfold gurobi.mixed_integer_quadratic_program gurobi.Sol.keyList
    by_cases h : model.status = .OPTIMAL <;>
      simp [h, hm false, ha false, hac false, hmi false, hme false]

/-! ## Claim C10: the solver wrapper silently drops small coefficients -/

/-- C10: `linear_expression` includes the term `A[i,j]·x_j` exactly when
`|A[i,j]| > 1e-10` and the offset `b_i` exactly when `|b_i| > 1e-10`;
`quadratic_expression` includes `x_i·H[i,j]·x_j` exactly when
`|H[i,j]| > 1e-7`; a row of a matrix all of whose entries are at most
`1e-10` in absolute value generates an expression with no variable terms —
in particular every row built from the tape benchmark's dynamics matrix
`A` (largest entry `5.5197e-17`) degenerates this way. -/
theorem C10_small_coefficients_dropped :
    (∀ (m n : ℕ) (A : Mat m n) (b : Vec m) (i : Fin m) (j : Fin n),
      ((A i j, j) ∈ (gurobi.linear_expression A b gurobi.linTol i).terms ↔
        gurobi.linTol < |A i j|)) ∧
    (∀ (m n : ℕ) (A : Mat m n) (b : Vec m) (i : Fin m),
      (b i ∈ (gurobi.linear_expression A b gurobi.linTol i).offsets ↔
        gurobi.linTol < |b i|)) ∧
    (∀ (n : ℕ) (H : Mat n n) (i j : Fin n),
      ((i, H i j, j) ∈ gurobi.quadratic_expression H gurobi.quadTol ↔
        gurobi.quadTol < |H i j|)) ∧
    (∀ (m n : ℕ) (A : Mat m n) (b : Vec m) (i : Fin m),
      (∀ j, |A i j| ≤ gurobi.linTol) →
      (gurobi.linear_expression A b gurobi.linTol i).terms = []) ∧
    (∀ (i j : Fin 3), |tape.A i j| ≤ gurobi.linTol) ∧
    (∀ (b : Vec 3) (i : Fin 3),
      (gurobi.linear_expression tape.A b gurobi.linTol i).terms = []) := by
  have hterm : ∀ (m n : ℕ) (A : Mat m n) (b : Vec m) (i : Fin m) (j : Fin n),
      ((A i j, j) ∈ (gurobi.linear_expression A b gurobi.linTol i).terms ↔
        gurobi.linTol < |A i j|) := by
    intro m n A b i j
    unfold gurobi.linear_expression
    simp only [List.mem_map, List.mem_filter, List.mem_finRange, true_and,
      decide_eq_true_eq]
    constructor
    · rintro ⟨j', hj', heq⟩
      have : j' = j := congrArg Prod.snd heq
      subst this
      exact hj'
    · intro h
      exact ⟨j, h, rfl⟩
  have hsmall : ∀ (m n : ℕ) (A : Mat m n) (b : Vec m) (i : Fin m),
      (∀ j, |A i j| ≤ gurobi.linTol) →
      (gurobi.linear_expression A b gurobi.linTol i).terms = [] := by
    intro m n A b i h
    unfold gurobi.linear_expression
    simp only [List.map_eq_nil_iff, List.filter_eq_nil_iff, List.mem_finRange,
      decide_eq_true_eq, true_implies]
    intro j
    exact not_lt.mpr (h j)
  have htape : ∀ (i j : Fin 3), |tape.A i j| ≤ gurobi.linTol := by
    intro i j
    fin_cases i <;> fin_cases j <;>
      norm_num [tape.A, gurobi.linTol, abs_le]
  refine ⟨hterm, ?_, ?_, hsmall, htape, ?_⟩
  · intro m n A b i
    unfold gurobi.linear_expression
    by_cases h : gurobi.linTol < |b i| <;> simp [h]
  · intro n H i j
    unfold gurobi.quadratic_expression
    simp only [List.mem_flatMap, List.mem_map, List.mem_filter,
      List.mem_finRange, true_and, decide_eq_true_eq]
    constructor
    · rintro ⟨i', j', hj', heq⟩
      have hi : i' = i := congrArg Prod.fst heq
      have hj : j' = j := congrArg (fun p => p.2.2) heq
      subst hi; subst hj
      exact hj'
    · intro h
      exact ⟨i, j, h, rfl⟩
  · intro b i
    exact hsmall 3 3 tape.A b i (fun j => htape i j)

/-- Witness for `C10_small_coefficients_dropped`: the first constraint row
generated from the tape dynamics matrix carries no variable terms. -/
theorem C10_small_coefficients_dropped_witness :
    (gurobi.linear_expression tape.A (fun _ => 0) gurobi.linTol 0).terms = [] :=
  C10_small_coefficients_dropped.2.2.2.1 3 3 tape.A (fun _ => 0) 0
    (fun j => C10_small_coefficients_dropped.2.2.2.2.1 0 j)

/-! ## ShieldRuntime (modelled from the spec)

`shield.py`, `Environment.py` and `DDPG.py` are not part of the given
sources; only their call sites in the benchmarks are.  The runtime
dispatch is therefore modelled from the spec (§3, §4.3, §4.4). -/

/-- Modelled from the spec (§3): a `ShieldEntry` is the `(K, invariant,
cover)` triple of a `Shield` — the gain `K`, the half-space system `(H, c)`
kept as a list of `(row, bias)` pairs, and the cover box `[lower, upper]`;
the `Shield` class itself (`shield.py`) is missing from the sources. -/
structure ShieldEntry (n m : ℕ) where
  K : Mat m n
  H : List (Vec n × ℚ)
  lower : Vec n
  upper : Vec n

/-- `x` satisfies the entry's invariant: `H x ≤ c` row by row. -/
def ShieldEntry.SatInv {n m : ℕ} (e : ShieldEntry n m) (x : Vec n) : Prop :=
  ∀ rc ∈ e.H, Matrix.dotProduct rc.1 x ≤ rc.2

instance {n m : ℕ} (e : ShieldEntry n m) (x : Vec n) :
    Decidable (e.SatInv x) := by
  unfold ShieldEntry.SatInv; infer_instance

/-- `x` lies inside the entry's cover box. -/
def ShieldEntry.InCover {n m : ℕ} (e : ShieldEntry n m) (x : Vec n) : Prop :=
  inBox e.lower e.upper x

instance {n : ℕ} (lower upper x : Vec n) : Decidable (inBox lower upper x) := by
  unfold inBox; infer_instance

instance {n m : ℕ} (e : ShieldEntry n m) (x : Vec n) :
    Decidable (e.InCover x) := by
  unfold ShieldEntry.InCover; infer_instance

instance {n m : ℕ} (env : Environment n m) (x : Vec n) :
    Decidable (env.inSafety x) := by
  unfold Environment.inSafety; infer_instance

/-- Modelled from the spec (§4.3): `stack.resolve(x)` scans the ordered
entries and returns the first one whose cover box contains `x`, or `None`
when `x` is outside every cover. -/
def resolve {n m : ℕ} : List (ShieldEntry n m) → Vec n → Option (ShieldEntry n m)
  | [], _ => Option.none
  | e :: rest, x => if e.InCover x then some e else resolve rest x

/-- Outcome of one runtime step (spec §4.4): a fatal resolution failure,
the policy action accepted, or the verified override `u = K x`. -/
inductive StepResult (n m : ℕ)
  | resolutionFailure
  | policyAction (u : Vec m)
  | shieldAction (u : Vec m)

/-- Modelled from the spec (§4.4, steps 1-4): resolve the active entry (on
failure the episode terminates); otherwise accept `u_nn` iff the one-step
lookahead `x' = A x + B u_nn` satisfies the entry's invariant and the
global safety bounds, else substitute `u = e.K x`. -/
def shieldStep {n m : ℕ} (env : Environment n m)
    (entries : List (ShieldEntry n m)) (x : Vec n) (u_nn : Vec m) :
    StepResult n m :=
  match resolve entries x with
  | Option.none => .resolutionFailure
  | some e =>
    let x' := env.A.mulVec x + env.B.mulVec u_nn
    if e.SatInv x' ∧ env.inSafety x' then .policyAction u_nn
    else .shieldAction (e.K.mulVec x)

/-- The cruise benchmark's single shield entry `(Ks[0], invs[0], covers[0])`. -/
def cruise.entry : ShieldEntry 1 1 :=
  { K := cruise.K, H := [(![1], 1), (![-1], 1)],
    lower := cruise.lower, upper := cruise.upper }

/-! ## Claim C3: the 1-D cruise override scenario -/

/-- C3 counterexample: at `x = 1.4` with the policy action driving the
one-step successor to `1.6`, the spec-modelled runtime does not override
with `K x`: `x = 1.4` lies outside the only cover box `[-1, 1]`, so
resolution fails and the step is a `resolutionFailure`, not a
`shieldAction`. -/
theorem C3_counterexample :
    (cruise.env.A.mulVec ![(7 : ℚ)/5] +
      cruise.env.B.mulVec ![(26494208 : ℚ)/1000000]) 0 = (8 : ℚ)/5 ∧
    shieldStep cruise.env [cruise.entry] ![(7 : ℚ)/5] ![(26494208 : ℚ)/1000000] =
      .resolutionFailure ∧
    shieldStep cruise.env [cruise.entry] ![(7 : ℚ)/5] ![(26494208 : ℚ)/1000000] ≠
      .shieldAction (cruise.entry.K.mulVec ![(7 : ℚ)/5]) := by
  have hnc : ¬ cruise.entry.InCover ![(7 : ℚ)/5] := by
    intro h
    have := (h 0).2
    simp [cruise.entry, cruise.upper] at this
    norm_num at this
  have hres : resolve [cruise.entry] ![(7 : ℚ)/5] = Option.none := by
    simp [resolve, hnc]
  have hstep : shieldStep cruise.env [cruise.entry] ![(7 : ℚ)/5]
      ![(26494208 : ℚ)/1000000] = .resolutionFailure := by
    unfold shieldStep
    rw [hres]
  refine ⟨?_, hstep, ?_⟩
  · simp [cruise.env, cruise.A, cruise.B, Matrix.mulVec, Matrix.dotProduct,
      Fin.sum_univ_succ]
    norm_num
  · rw [hstep]
    intro h
    exact StepResult.noConfusion h

/-- C3 (amended): for any state inside the cruise entry's cover box whose
one-step lookahead under the proposed action violates the invariant or the
safety bounds, the spec-modelled runtime substitutes `u = K x`, and the
resulting closed-loop successor (which is exactly `0`) lies within
`[-1.5, 1.5]`.  (At `x = 1.4` itself resolution fails instead, but the
override action would still give `A x + B (K x) = 0 ∈ [-1.5, 1.5]`, as
`cruise.step_eq_zero` shows.) -/
theorem C3_runtime_override (x u_nn : Vec 1)
    (hcov : cruise.entry.InCover x)
    (hviol : ¬ (cruise.entry.SatInv
        (cruise.env.A.mulVec x + cruise.env.B.mulVec u_nn) ∧
      cruise.env.inSafety (cruise.env.A.mulVec x + cruise.env.B.mulVec u_nn))) :
    shieldStep cruise.env [cruise.entry] x u_nn =
      .shieldAction (cruise.entry.K.mulVec x) ∧
    cruise.step x = ![0] ∧
    cruise.env.inSafety (cruise.step x) := by
  have h0 : cruise.step x = ![0] := cruise.step_eq_zero x
  refine ⟨?_, h0, ?_⟩
  · unfold shieldStep
    have hres : resolve [cruise.entry] x = some cruise.entry := by
      simp [resolve, hcov]
    rw [hres]
    simp [hviol]
  · rw [h0]
    intro i
    fin_cases i
    simp [cruise.env, cruise.x_min, cruise.x_max, Environment.inSafety]
    norm_num

/-- Witness for `C3_runtime_override` at `x = 0.9` with the action
`u_nn = 90.174848` whose successor is `1.6`. -/
theorem C3_runtime_override_witness :
    cruise.entry.InCover ![(9 : ℚ)/10] ∧
    shieldStep cruise.env [cruise.entry] ![(9 : ℚ)/10] ![(90174848 : ℚ)/1000000] =
      .shieldAction (cruise.entry.K.mulVec ![(9 : ℚ)/10]) ∧
    cruise.env.inSafety (cruise.step ![(9 : ℚ)/10]) := by
  have hsucc : cruise.env.A.mulVec ![(9 : ℚ)/10] +
      cruise.env.B.mulVec ![(90174848 : ℚ)/1000000] = ![(8 : ℚ)/5] := by
    funext i
    fin_cases i
    simp [cruise.env, cruise.A, cruise.B, Matrix.mulVec, Matrix.dotProduct,
      Fin.sum_univ_succ]
    norm_num
  have hcov : cruise.entry.InCover ![(9 : ℚ)/10] := by
    intro i
    fin_cases i
    simp [cruise.entry, cruise.lower, cruise.upper]
    norm_num
  have hviol : ¬ (cruise.entry.SatInv
      (cruise.env.A.mulVec ![(9 : ℚ)/10] +
        cruise.env.B.mulVec ![(90174848 : ℚ)/1000000]) ∧
    cruise.env.inSafety (cruise.env.A.mulVec ![(9 : ℚ)/10] +
        cruise.env.B.mulVec ![(90174848 : ℚ)/1000000])) := by
    rw [hsucc]
    rintro ⟨h1, -⟩
    have := h1 (![1], 1) (by simp [cruise.entry])
    simp [Matrix.dotProduct] at this
    norm_num at this
  exact ⟨hcov,
    (C3_runtime_override ![(9 : ℚ)/10] ![(90174848 : ℚ)/1000000] hcov hviol).1,
    (C3_runtime_override ![(9 : ℚ)/10] ![(90174848 : ℚ)/1000000] hcov hviol).2.2⟩

/-! ## Persisted gain-matrix path (`<checkpoint-dir>/K.model.npy`) -/

namespace ospath

/-- `p.rfind('/') + 1` on a list of characters: the index one past the last
slash, `0` when there is no slash (Python's `rfind` returns `-1`). -/
def rfindSlashSucc : List Char → ℕ
  | [] => 0
  | c :: rest =>
    let r := rfindSlashSucc rest
    if r = 0 then (if c = '/' then 1 else 0) else r + 1

/-- `head.rstrip('/')`. -/
def rstripSlashes (l : List Char) : List Char :=
  (l.reverse.dropWhile (fun c => c = '/')).reverse

/-- `posixpath.split(p)[0]`: `head = p[:rfind+1]`; trailing slashes are
then stripped unless the head consists only of slashes. -/
def splitHead (p : String) : String :=
  let l := p.toList
  let head := l.take (rfindSlashSucc l)
  if head ≠ [] ∧ ¬ (head.all fun c => c = '/') then
    (rstripSlashes head).asString
  else head.asString

/-- The persisted gain path assembled by every benchmark entry point:
`os.path.split(args['model_path'])[0] + '/' + 'K.model' + '.npy'`. -/
def kModelPath (model_path : String) : String :=
  splitHead model_path ++ "/" ++ "K.model" ++ ".npy"

end ospath

/-- The checkpoint path `args['model_path']` assembled by each benchmark:
`train_dir + "retrained_model.chkp"` when `retrain_nn` is set, otherwise
`train_dir + "model.chkp"` (the 8-car-platoon script has only the second
form). -/
def argsModelPath (train_dir : String) (retrain_nn : Bool) : String :=
  if retrain_nn then train_dir ++ "retrained_model.chkp"
  else train_dir ++ "model.chkp"

/-- The `train_dir` passed at the cruise `__main__` call site. -/
def cruise.train_dir : String := "ddpg_chkp/cruise/240200280240200/"

/-- The `train_dir` passed at the quadcopter `__main__` call site. -/
def quadcopter.train_dir : String := "ddpg_chkp/quadcopter/240200280240200/"

/-- The `train_dir` passed at the 4-car-platoon `__main__` call site. -/
def carplatoon4.train_dir : String :=
  "ddpg_chkp/car-platoon/discrete/4/500400300600500400300/"

/-- The `train_dir` passed at the magnetic-pointer `__main__` call site. -/
def magneticpointer.train_dir : String :=
  "ddpg_chkp/magnetic_pointer/240200280240200/"

/-- The `train_dir` passed at the suspension `__main__` call site. -/
def suspension.train_dir : String := "ddpg_chkp/suspension/240200280240200/"

/-- The `train_dir` passed at the tape `__main__` call site. -/
def tape.train_dir : String := "ddpg_chkp/tape/240200280240200/"

/-! ## Claim C9: the persisted gain path is `<checkpoint-dir>/K.model.npy` -/

/-- C9: for every checkpoint directory and both `retrain_nn` branches, the
persisted gain path equals the directory component of `args['model_path']`
joined with the fixed name `K.model.npy`; at each benchmark's concrete
`__main__` arguments (either branch) the resulting path is spelled out.
The 8-car-platoon script takes `train_dir` from `argv`, which the first,
universally quantified conjunct covers with `r = false`. -/
theorem C9_k_model_path :
    (∀ (td : String) (r : Bool),
      ospath.kModelPath (argsModelPath td r) =
        ospath.splitHead (argsModelPath td r) ++ "/K.model.npy") ∧
    ospath.kModelPath (argsModelPath cruise.train_dir false) =
      "ddpg_chkp/cruise/240200280240200/K.model.npy" ∧
    ospath.kModelPath (argsModelPath cruise.train_dir true) =
      "ddpg_chkp/cruise/240200280240200/K.model.npy" ∧
    ospath.kModelPath (argsModelPath quadcopter.train_dir false) =
      "ddpg_chkp/quadcopter/240200280240200/K.model.npy" ∧
    ospath.kModelPath (argsModelPath quadcopter.train_dir true) =
      "ddpg_chkp/quadcopter/240200280240200/K.model.npy" ∧
    ospath.kModelPath (argsModelPath carplatoon4.train_dir false) =
      "ddpg_chkp/car-platoon/discrete/4/500400300600500400300/K.model.npy" ∧
    ospath.kModelPath (argsModelPath carplatoon4.train_dir true) =
      "ddpg_chkp/car-platoon/discrete/4/500400300600500400300/K.model.npy" ∧
    ospath.kModelPath (argsModelPath magneticpointer.train_dir false) =
      "ddpg_chkp/magnetic_pointer/240200280240200/K.model.npy" ∧
    ospath.kModelPath (argsModelPath magneticpointer.train_dir true) =
      "ddpg_chkp/magnetic_pointer/240200280240200/K.model.npy" ∧
    ospath.kModelPath (argsModelPath suspension.train_dir false) =
      "ddpg_chkp/suspension/240200280240200/K.model.npy" ∧
    ospath.kModelPath (argsModelPath suspension.train_dir true) =
      "ddpg_chkp/suspension/240200280240200/K.model.npy" ∧
    ospath.kModelPath (argsModelPath tape.train_dir false) =
      "ddpg_chkp/tape/240200280240200/K.model.npy" ∧
    ospath.kModelPath (argsModelPath tape.train_dir true) =
      "ddpg_chkp/tape/240200280240200/K.model.npy" := by
  refine ⟨?_, ?_, ?_, ?_, ?_, ?_, ?_, ?_, ?_, ?_, ?_, ?_, ?_⟩
  · intro td r
    unfold ospath.kModelPath
    rw [String.append_assoc, String.append_assoc]
    rfl
  all_goals rfl

end SafeLearning
